import Mathlib

/-!
Shallow embedding of the rental-store core of
src/src/context/StoreContext.tsx (availability engine, reservation
committer, payment ledger, stock adjuster, stats projection).

Modelling conventions:
  - A JS Date is modelled by its UTC timestamp in milliseconds
    (structure JDate).  Its calendar day, as produced by
    toISOString().split(...)[0], is ts / msPerDay; setDate(getDate()+1)
    adds msPerDay (UTC model, daylight-saving shifts ignored).
  - ISO day strings compare exactly like their day indices, so the
    supabase gte/lte filters on reserved_date become Nat comparisons.
  - Money amounts (decimal columns, JS numbers) are modelled as Int.
  - The JS idiom x || d on a number x is jsOr x d: d when x = 0, else x.
  - Row ids (uuids) are modelled as Nat, allocated from State.nextId.
  - The one store-failure mode the claims mention, a failing select on
    rental_calendar, is the State.calSelectFails flag; other supabase
    error branches rethrow without prior writes and are not modelled.
-/

namespace Gestion

/-- Milliseconds per calendar day. -/
def msPerDay : Nat := 86400000

/-- A JS Date, identified with its UTC timestamp in milliseconds. -/
structure JDate where
  ts : Nat
deriving DecidableEq, Repr

/-- Calendar day index of a date: the day part of toISOString(). -/
def JDate.day (d : JDate) : Nat := d.ts / msPerDay

/-- currentDate.setDate(currentDate.getDate() + 1): advance one day. -/
def JDate.nextDay (d : JDate) : JDate := ⟨d.ts + msPerDay⟩

/-- Status of a rental_calendar row. -/
inductive CalStatus where
  | reserved
  | available
deriving DecidableEq, Repr

/-- payment_status values: pending, partial (part), completed. -/
inductive PayStatus where
  | pending
  | part
  | completed
deriving DecidableEq, Repr

/-- Rental.status values. -/
inductive RStatus where
  | active
  | returned
  | cancelled
  | overdue
deriving DecidableEq, Repr

/-- Transaction type. -/
inductive TxType where
  | sale
  | rental
deriving DecidableEq, Repr

/-- products row (fields the modelled operations read). -/
structure Product where
  id : Nat
  stock : Int
deriving DecidableEq, Repr

/-- rental_calendar row. -/
structure CalendarEntry where
  productId : Nat
  rentalId : Nat
  date : Nat
  status : CalStatus
deriving DecidableEq, Repr

/-- rentals row (fields the modelled operations read or write). -/
structure Rental where
  id : Nat
  productId : Nat
  startDay : Nat
  endDay : Nat
  totalAmount : Int
  amountPaid : Int
  remainingAmount : Int
  payStatus : PayStatus
  status : RStatus
  returnedAt : Option Nat
deriving DecidableEq, Repr

/-- transactions row (fields the modelled operations read or write). -/
structure Txn where
  id : Nat
  type : TxType
  productId : Nat
  quantity : Int
  totalAmount : Int
  amountPaid : Int
  remainingAmount : Int
  payStatus : PayStatus
deriving DecidableEq, Repr

/-- Argument of addRental (Omit of Rental over id and createdAt);
dates still carry their time-of-day. -/
structure RentalInput where
  productId : Nat
  rentalStartDate : JDate
  rentalEndDate : JDate
  totalAmount : Int
  amountPaid : Int
  remainingAmount : Int
  payStatus : PayStatus
  status : RStatus
deriving DecidableEq, Repr

/-- Argument of addTransaction (Omit of Transaction over id, createdAt). -/
structure TxnInput where
  type : TxType
  productId : Nat
  quantity : Int
  totalAmount : Int
  amountPaid : Int
  remainingAmount : Int
  payStatus : PayStatus
deriving DecidableEq, Repr

/-- Backing-store state seen through the StoreContext provider. -/
structure State where
  products : List Product
  transactions : List Txn
  rentals : List Rental
  calendar : List CalendarEntry
  nextId : Nat
  calSelectFails : Bool
deriving DecidableEq, Repr

/-- JS x || d on numbers: d when x is falsy (that is, 0), else x. -/
def jsOr (x d : Int) : Int := if x = 0 then d else x

/-- The error addRental throws when the range is not free. -/
inductive StoreErr where
  | conflict
deriving DecidableEq, Repr

/-- The rental_calendar select of checkProductAvailability: rows of the
product with status reserved and reserved_date between the day strings
of startDate and endDate (both bounds inclusive). -/
def overlapRows (st : State) (productId : Nat) (startDate endDate : JDate) :
    List CalendarEntry :=
  st.calendar.filter (fun e =>
    decide (e.productId = productId ∧ e.status = CalStatus.reserved ∧
      startDate.day ≤ e.date ∧ e.date ≤ endDate.day))

/-- checkProductAvailability: on select error returns false, else true
iff the overlap query returned no rows (data.length === 0). -/
def checkProductAvailability (st : State) (productId : Nat)
    (startDate endDate : JDate) : Bool :=
  if st.calSelectFails then false
  else decide ((overlapRows st productId startDate endDate).length = 0)

/-- Result record of getProductAvailability. -/
structure ProductAvailability where
  productId : Nat
  availableDates : List Nat
  reservedDates : List Nat
  isAvailable : Bool
deriving DecidableEq, Repr

/-- The days of the month, first to last inclusive, as the while loop
from startOfMonth to endOfMonth enumerates them. -/
def monthDays (monthStart monthEnd : Nat) : List Nat :=
  List.range' monthStart (monthEnd + 1 - monthStart)

/-- getProductAvailability over the month [monthStart, monthEnd] (day
indices of startOfMonth and endOfMonth).  On select error it returns
empty date lists with isAvailable true; otherwise reservedDates are the
reserved rows of the month and availableDates the remaining days. -/
def getProductAvailability (st : State) (productId : Nat)
    (monthStart monthEnd : Nat) : ProductAvailability :=
  if st.calSelectFails then
    { productId := productId, availableDates := [], reservedDates := [],
      isAvailable := true }
  else
    let rows := st.calendar.filter (fun e =>
      decide (e.productId = productId ∧ monthStart ≤ e.date ∧ e.date ≤ monthEnd))
    let reservedDates :=
      (rows.filter (fun e => decide (e.status = CalStatus.reserved))).map
        (fun e => e.date)
    let availableDates :=
      (monthDays monthStart monthEnd).filter (fun d => !(reservedDates.contains d))
    { productId := productId, availableDates := availableDates,
      reservedDates := reservedDates,
      isAvailable := decide (0 < availableDates.length) }

/-- The dates loop of addRental: starting at cur, while
currentDate <= rentalEndDate (raw timestamp comparison) push a row
(product_id, rental_id, reserved_date = day string of currentDate,
status reserved) and advance one day. -/
def genDates (productId rentalId : Nat) (cur endDate : JDate) :
    List CalendarEntry :=
  if cur.ts ≤ endDate.ts then
    { productId := productId, rentalId := rentalId, date := cur.day,
      status := CalStatus.reserved } ::
      genDates productId rentalId cur.nextDay endDate
  else []
termination_by endDate.ts + 1 - cur.ts
decreasing_by simp [JDate.nextDay, msPerDay]; omega

/-- The write phase of addRental: insert the rentals row (amount_paid
defaults to total via ||, remaining to 0, day-granular dates) and the
generated rental_calendar rows. -/
def insertRental (st : State) (r : RentalInput) : State :=
  let rid := st.nextId
  let newRental : Rental :=
    { id := rid, productId := r.productId,
      startDay := r.rentalStartDate.day, endDay := r.rentalEndDate.day,
      totalAmount := r.totalAmount,
      amountPaid := jsOr r.amountPaid r.totalAmount,
      remainingAmount := jsOr r.remainingAmount 0,
      payStatus := r.payStatus, status := r.status, returnedAt := none }
  { st with
    rentals := newRental :: st.rentals,
    calendar := st.calendar ++
      genDates r.productId rid r.rentalStartDate r.rentalEndDate,
    nextId := st.nextId + 1 }

/-- addRental: availability check first; if the range is not free throw
the conflict error with nothing written, else run the write phase and
return the new id. -/
def addRental (st : State) (r : RentalInput) : Except StoreErr Nat × State :=
  if checkProductAvailability st r.productId r.rentalStartDate r.rentalEndDate
  then (Except.ok st.nextId, insertRental st r)
  else (Except.error StoreErr.conflict, st)

/-- The rental_calendar update of updateRentalStatus: set every row of
the rental to available. -/
def releaseCalendar (cal : List CalendarEntry) (rentalId : Nat) :
    List CalendarEntry :=
  cal.map (fun e =>
    if e.rentalId = rentalId then { e with status := CalStatus.available }
    else e)

/-- updateRentalStatus: write the status (and returned_at when given) on
the rentals row, then, only when the new status is returned, flip the
rental_calendar rows of the rental to available. -/
def updateRentalStatus (st : State) (id : Nat) (status : RStatus)
    (returnedAt : Option Nat) : State :=
  let rentals := st.rentals.map (fun r =>
    if r.id = id then
      { r with
        status := status,
        returnedAt := match returnedAt with
          | some t => some t
          | none => r.returnedAt }
    else r)
  let cal :=
    if status = RStatus.returned then releaseCalendar st.calendar id
    else st.calendar
  { st with rentals := rentals, calendar := cal }

/-- updateStock: silently return when the product is not in the cached
list, else write stock = max(0, stock + quantity). -/
def updateStock (st : State) (productId : Nat) (quantity : Int) : State :=
  match st.products.find? (fun p => p.id == productId) with
  | none => st
  | some p =>
    let newStock := max 0 (p.stock + quantity)
    { st with products := st.products.map (fun q =>
        if q.id = productId then { q with stock := newStock } else q) }

/-- The transactions insert of addTransaction (amount_paid defaults to
total via ||, remaining to 0, payment_status kept: a nonempty enum
string is never falsy). -/
def insertTxn (st : State) (t : TxnInput) : State × Nat :=
  let tid := st.nextId
  ({ st with
     transactions :=
       { id := tid, type := t.type, productId := t.productId,
         quantity := t.quantity, totalAmount := t.totalAmount,
         amountPaid := jsOr t.amountPaid t.totalAmount,
         remainingAmount := jsOr t.remainingAmount 0,
         payStatus := t.payStatus } :: st.transactions,
     nextId := st.nextId + 1 }, tid)

/-- addTransaction: insert the row, then on a sale decrement stock by
the quantity (customer upsert does not touch the modelled tables). -/
def addTransaction (st : State) (t : TxnInput) : State × Nat :=
  let res := insertTxn st t
  (if t.type = TxType.sale then updateStock res.1 t.productId (-t.quantity)
   else res.1, res.2)

/-- updateTransactionPayment: find the cached transaction (silent no-op
when absent), add the amount to amount_paid (prior || 0), clamp
remaining at 0, derive payment_status, write the three fields. -/
def updateTransactionPayment (st : State) (transactionId : Nat)
    (amountPaid : Int) : State :=
  match st.transactions.find? (fun t => t.id == transactionId) with
  | none => st
  | some t =>
    let totalPaid := jsOr t.amountPaid 0 + amountPaid
    let remaining := max 0 (t.totalAmount - totalPaid)
    let ps :=
      if remaining = 0 then PayStatus.completed
      else if 0 < totalPaid then PayStatus.part
      else PayStatus.pending
    { st with
      transactions := st.transactions.map (fun u =>
        if u.id = transactionId then
          { u with
            amountPaid := totalPaid, remainingAmount := remaining,
            payStatus := ps }
        else u) }

/-- updateRentalPayment: same ledger update on the rentals table. -/
def updateRentalPayment (st : State) (rentalId : Nat)
    (amountPaid : Int) : State :=
  match st.rentals.find? (fun r => r.id == rentalId) with
  | none => st
  | some r =>
    let totalPaid := jsOr r.amountPaid 0 + amountPaid
    let remaining := max 0 (r.totalAmount - totalPaid)
    let ps :=
      if remaining = 0 then PayStatus.completed
      else if 0 < totalPaid then PayStatus.part
      else PayStatus.pending
    { st with
      rentals := st.rentals.map (fun u =>
        if u.id = rentalId then
          { u with
            amountPaid := totalPaid, remainingAmount := remaining,
            payStatus := ps }
        else u) }

/-- Result record of getStats (the fields computed from the modelled
tables; the date filters are not applied, matching a call without
dateFrom and dateTo). -/
structure StoreStats where
  totalSales : Nat
  totalRentals : Nat
  revenue : Int
  totalProducts : Nat
  activeRentals : Nat
  overdueRentals : Nat
  pendingReturns : Nat
deriving DecidableEq, Repr

/-- The overdue test of getStats as a standalone function: a rental row
is overdue iff its stored status is active and the midnight timestamp
of its end day is before now. -/
def isOverdue (endDay : Nat) (status : RStatus) (now : JDate) : Bool :=
  decide (status = RStatus.active) && decide (endDay * msPerDay < now.ts)

/-- getStats at wall-clock time now (new Date(rental_end_date) parses
the stored day string to midnight UTC, hence endDay * msPerDay). -/
def getStats (st : State) (now : JDate) : StoreStats :=
  let totalSales :=
    (st.transactions.filter (fun t => decide (t.type = TxType.sale))).length
  let totalRentals :=
    (st.transactions.filter (fun t => decide (t.type = TxType.rental))).length
  let revenue :=
    st.transactions.foldl (fun s t => s + jsOr t.amountPaid t.totalAmount) 0
  let activeRentals :=
    (st.rentals.filter (fun r => decide (r.status = RStatus.active))).length
  let overdueRentals :=
    (st.rentals.filter (fun r =>
      decide (r.status = RStatus.active) &&
        decide (r.endDay * msPerDay < now.ts))).length
  { totalSales := totalSales, totalRentals := totalRentals,
    revenue := revenue, totalProducts := st.products.length,
    activeRentals := activeRentals, overdueRentals := overdueRentals,
    pendingReturns := activeRentals }

/-- Modelled from the spec: the rental-management UI screens that call
the StoreContext mutators are not under src/.  Per the spec state
machine, rentals are committed with status active and
updateRentalStatus is invoked only for the transitions to returned or
cancelled; payments, stock updates and sales may happen freely. -/
inductive Step : State → State → Prop where
  | commit (st : State) (r : RentalInput) (h : r.status = RStatus.active) :
      Step st (addRental st r).2
  | release (st : State) (id : Nat) (s : RStatus) (rAt : Option Nat)
      (h : s = RStatus.returned ∨ s = RStatus.cancelled) :
      Step st (updateRentalStatus st id s rAt)
  | payTxn (st : State) (tid : Nat) (a : Int) :
      Step st (updateTransactionPayment st tid a)
  | payRental (st : State) (rid : Nat) (a : Int) :
      Step st (updateRentalPayment st rid a)
  | stock (st : State) (pid : Nat) (q : Int) :
      Step st (updateStock st pid q)
  | sell (st : State) (t : TxnInput) :
      Step st (addTransaction st t).1

/-- The empty initial store. -/
def state0 : State :=
  { products := [], transactions := [], rentals := [], calendar := [],
    nextId := 0, calSelectFails := false }

/-- States reachable from the empty store under the spec-modelled call
discipline. -/
def Reachable (st : State) : Prop := Relation.ReflTransGen Step state0 st

/-- A store holding one reserved calendar day (product 1, rental 7,
day 10). -/
def conflictState : State :=
  { products := [], transactions := [], rentals := [],
    calendar := [⟨1, 7, 10, CalStatus.reserved⟩], nextId := 8,
    calSelectFails := false }

/-- A rental request for product 1 on the already reserved day 10. -/
def conflictReq : RentalInput :=
  ⟨1, ⟨10 * msPerDay⟩, ⟨10 * msPerDay⟩, 100, 100, 0, PayStatus.completed,
    RStatus.active⟩

/-- An empty store about to allocate id 5. -/
def emptyState5 : State :=
  { products := [], transactions := [], rentals := [], calendar := [],
    nextId := 5, calSelectFails := false }

/-- A request whose start (day 0, one millisecond past midnight) lies
after its end (day 1, midnight) within the day, though the calendar
range [day 0, day 1] is ascending. -/
def lateStartReq : RentalInput :=
  ⟨1, ⟨1⟩, ⟨msPerDay⟩, 100, 100, 0, PayStatus.completed, RStatus.active⟩

/-- A one-day midnight-to-midnight request on day 0. -/
def singleDayReq : RentalInput :=
  ⟨1, ⟨0⟩, ⟨0⟩, 100, 100, 0, PayStatus.completed, RStatus.active⟩

/-- A store whose rental_calendar select fails. -/
def failState : State :=
  { products := [], transactions := [], rentals := [], calendar := [],
    nextId := 0, calSelectFails := true }

/-- A store with one active rental owning one reserved day. -/
def activeRentalState : State :=
  { products := [], transactions := [],
    rentals := [⟨1, 1, 10, 10, 100, 100, 0, PayStatus.completed,
      RStatus.active, none⟩],
    calendar := [⟨1, 1, 10, CalStatus.reserved⟩], nextId := 2,
    calSelectFails := false }

/-- A store with a fully paid transaction (total 500, paid 500). -/
def fullyPaidState : State :=
  { products := [],
    transactions := [⟨1, TxType.sale, 1, 1, 500, 500, 0,
      PayStatus.completed⟩],
    rentals := [], calendar := [], nextId := 2, calSelectFails := false }

/-- A store with one partially paid transaction (total 500, paid 100)
and one partially paid rental (total 300, paid 50). -/
def partPaidState : State :=
  { products := [],
    transactions := [⟨1, TxType.sale, 1, 1, 500, 100, 400,
      PayStatus.part⟩],
    rentals := [⟨2, 1, 10, 12, 300, 50, 250, PayStatus.part,
      RStatus.active, none⟩],
    calendar := [], nextId := 3, calSelectFails := false }

/-- A store with product 1 in stock and a free calendar. -/
def raceState : State :=
  { products := [⟨1, 3⟩], transactions := [], rentals := [],
    calendar := [], nextId := 1, calSelectFails := false }

/-- First concurrent request: product 1, single day 10. -/
def raceReqA : RentalInput :=
  ⟨1, ⟨10 * msPerDay⟩, ⟨10 * msPerDay⟩, 100, 100, 0, PayStatus.completed,
    RStatus.active⟩

/-- Second concurrent request: also product 1, single day 10. -/
def raceReqB : RentalInput :=
  ⟨1, ⟨10 * msPerDay⟩, ⟨10 * msPerDay⟩, 200, 200, 0, PayStatus.completed,
    RStatus.active⟩

/-- A sale of two units of product 1 (five in stock). -/
def saleInput : TxnInput :=
  ⟨TxType.sale, 1, 2, 80, 80, 0, PayStatus.completed⟩

/-- A store with product 1 at stock five. -/
def stockState : State :=
  { products := [⟨1, 5⟩], transactions := [], rentals := [],
    calendar := [], nextId := 1, calSelectFails := false }

/-!  Helper lemmas shared by the claim theorems. -/

/-- On a number, x || 0 is x. -/
theorem jsOr_self (x : Int) : jsOr x 0 = x := by
  unfold jsOr; split <;> simp_all

/-- One unfolding step of the dates loop while the guard holds. -/
theorem genDates_of_le {cur endDate : JDate} (pid rid : Nat)
    (h : cur.ts ≤ endDate.ts) :
    genDates pid rid cur endDate =
      { productId := pid, rentalId := rid, date := cur.day,
        status := CalStatus.reserved } ::
        genDates pid rid cur.nextDay endDate := by
  rw [genDates]; simp [h]

/-- The dates loop stops once the guard fails. -/
theorem genDates_of_gt {cur endDate : JDate} (pid rid : Nat)
    (h : endDate.ts < cur.ts) :
    genDates pid rid cur endDate = [] := by
  rw [genDates]; simp [Nat.not_le.mpr h]

/-- Closed form of the dates loop when the end lies a whole number of
days after the start: one row per day, in order. -/
theorem genDates_range (pid rid : Nat) (k : Nat) :
    ∀ t : Nat, genDates pid rid ⟨t⟩ ⟨t + k * msPerDay⟩ =
      (List.range' (t / msPerDay) (k + 1)).map (fun d =>
        { productId := pid, rentalId := rid, date := d,
          status := CalStatus.reserved }) := by
  induction k with
  | zero =>
    intro t
    rw [genDates_of_le pid rid (by simp)]
    rw [genDates_of_gt pid rid (by simp [JDate.nextDay, msPerDay])]
    simp [JDate.day]
  | succ k ih =>
    intro t
    rw [genDates_of_le pid rid (by simp)]
    have hstep : (⟨t⟩ : JDate).nextDay = ⟨t + msPerDay⟩ := rfl
    have harg : t + (k + 1) * msPerDay = (t + msPerDay) + k * msPerDay := by
      ring
    rw [hstep, harg, ih (t + msPerDay)]
    have hdiv : (t + msPerDay) / msPerDay = t / msPerDay + 1 := by
      simp [msPerDay]
    rw [hdiv]
    simp [JDate.day, List.range'_succ]

/-- C1: when the requested product and inclusive day range overlap an
existing reserved CalendarEntry, addRental fails with the conflict
error and returns the store unchanged: no Rental row and no
CalendarEntry rows are written. -/
theorem addRental_conflict_no_mutation (st : State) (r : RentalInput)
    (e : CalendarEntry) (he : e ∈ st.calendar)
    (hp : e.productId = r.productId) (hs : e.status = CalStatus.reserved)
    (h1 : r.rentalStartDate.day ≤ e.date)
    (h2 : e.date ≤ r.rentalEndDate.day) :
    addRental st r = (Except.error StoreErr.conflict, st) := by
  have hmem :
      e ∈ overlapRows st r.productId r.rentalStartDate r.rentalEndDate := by
    unfold overlapRows
    rw [List.mem_filter]
    exact ⟨he, by simp [hp, hs, h1, h2]⟩
  have hne :
      (overlapRows st r.productId r.rentalStartDate
        r.rentalEndDate).length ≠ 0 := by
    intro h0
    rw [List.length_eq_zero] at h0
    rw [h0] at hmem
    exact (List.not_mem_nil e) hmem
  have hcheck : checkProductAvailability st r.productId r.rentalStartDate
      r.rentalEndDate = false := by
    unfold checkProductAvailability
    split
    · rfl
    · simpa using hne
  unfold addRental
  rw [hcheck]
  simp

/-- Witness for C1 at a concrete store: day 10 of product 1 is already
reserved and a request for exactly that day is rejected unchanged. -/
theorem addRental_conflict_no_mutation_witness :
    (⟨1, 7, 10, CalStatus.reserved⟩ : CalendarEntry) ∈
        conflictState.calendar ∧
      addRental conflictState conflictReq =
        (Except.error StoreErr.conflict, conflictState) :=
  ⟨by decide,
    addRental_conflict_no_mutation conflictState conflictReq
      ⟨1, 7, 10, CalStatus.reserved⟩ (by decide) (by decide) (by decide)
      (by decide) (by decide)⟩

/-- C4 (amended): when the rental_calendar select fails,
checkProductAvailability returns false (the range is treated as NOT
free) and getProductAvailability returns empty availableDates and
reservedDates with the isAvailable flag true. -/
theorem availability_on_select_failure (st : State)
    (h : st.calSelectFails = true) (pid : Nat) (s e : JDate)
    (monthStart monthEnd : Nat) :
    checkProductAvailability st pid s e = false ∧
      getProductAvailability st pid monthStart monthEnd =
        { productId := pid, availableDates := [], reservedDates := [],
          isAvailable := true } := by
  unfold checkProductAvailability getProductAvailability
  rw [h]
  simp

/-- Witness for the amended C4 at a concrete failing store. -/
theorem availability_on_select_failure_witness :
    failState.calSelectFails = true ∧
      checkProductAvailability failState 1 ⟨0⟩ ⟨0⟩ = false ∧
      getProductAvailability failState 1 0 29 =
        { productId := 1, availableDates := [], reservedDates := [],
          isAvailable := true } :=
  ⟨rfl,
    (availability_on_select_failure failState rfl 1 ⟨0⟩ ⟨0⟩ 0 29).1,
    (availability_on_select_failure failState rfl 1 ⟨0⟩ ⟨0⟩ 0 29).2⟩

/-- Counterexample to C4 as stated: with the select failing,
checkProductAvailability (isRangeFree) returns false, not true, and
getProductAvailability reports no day of the 30-day month as available
instead of all of them. -/
theorem availability_failure_not_fail_open :
    checkProductAvailability failState 1 ⟨0⟩ ⟨0⟩ = false ∧
      (getProductAvailability failState 1 0 29).availableDates = [] := by
  constructor
  · decide
  · decide

/-- Flipping the calendar rows of a rental twice is the same as once. -/
theorem releaseCalendar_idem (cal : List CalendarEntry) (id : Nat) :
    releaseCalendar (releaseCalendar cal id) id = releaseCalendar cal id := by
  unfold releaseCalendar
  rw [List.map_map]
  apply List.map_congr_left
  intro e _
  by_cases h : e.rentalId = id <;> simp [h]

/-- C5 (amended): transitioning a rental to returned flips every
CalendarEntry row owned by it to available, and releasing again is a
no-op on the whole store; transitioning to cancelled, however, leaves
the calendar untouched. -/
theorem updateRentalStatus_release (st : State) (id : Nat)
    (rAt : Option Nat) :
    (∀ e ∈ (updateRentalStatus st id RStatus.returned rAt).calendar,
        e.rentalId = id → e.status = CalStatus.available) ∧
      updateRentalStatus (updateRentalStatus st id RStatus.returned rAt)
          id RStatus.returned rAt =
        updateRentalStatus st id RStatus.returned rAt ∧
      (updateRentalStatus st id RStatus.cancelled rAt).calendar =
        st.calendar := by
  refine ⟨?_, ?_, ?_⟩
  · intro e he hid
    unfold updateRentalStatus releaseCalendar at he
    simp at he
    obtain ⟨v, _, rfl⟩ := he
    by_cases h : v.rentalId = id
    · simp [h]
    · rw [if_neg h] at hid
      exact absurd hid h
  · unfold updateRentalStatus
    simp only [if_pos rfl, eq_self_iff_true, if_true]
    rw [releaseCalendar_idem, List.map_map]
    have hmap : ∀ l : List Rental,
        (l.map (fun r =>
          if r.id = id then
            { r with
              status := RStatus.returned,
              returnedAt := match rAt with
                | some t => some t
                | none => r.returnedAt }
          else r)).map (fun r =>
          if r.id = id then
            { r with
              status := RStatus.returned,
              returnedAt := match rAt with
                | some t => some t
                | none => r.returnedAt }
          else r) =
        l.map (fun r =>
          if r.id = id then
            { r with
              status := RStatus.returned,
              returnedAt := match rAt with
                | some t => some t
                | none => r.returnedAt }
          else r) := by
      intro l
      rw [List.map_map]
      apply List.map_congr_left
      intro r _
      by_cases h : r.id = id
      · simp only [Function.comp]
        rw [if_pos h]
        have : ({ r with
            status := RStatus.returned,
            returnedAt := match rAt with
              | some t => some t
              | none => r.returnedAt } : Rental).id = id := h
        rw [if_pos this]
        cases rAt <;> rfl
      · simp only [Function.comp]
        rw [if_neg h, if_neg h]
    rw [← List.map_map]
    rw [hmap st.rentals]
  · unfold updateRentalStatus
    simp

/-- Witness for the amended C5 at a concrete store with one active
rental owning one reserved day. -/
theorem updateRentalStatus_release_witness :
    (⟨1, 1, 10, CalStatus.available⟩ : CalendarEntry) ∈
        (updateRentalStatus activeRentalState 1 RStatus.returned
          (some 20)).calendar ∧
      ((⟨1, 1, 10, CalStatus.available⟩ : CalendarEntry).rentalId = 1 →
        (⟨1, 1, 10, CalStatus.available⟩ : CalendarEntry).status =
          CalStatus.available) ∧
      updateRentalStatus
          (updateRentalStatus activeRentalState 1 RStatus.returned
            (some 20)) 1 RStatus.returned (some 20) =
        updateRentalStatus activeRentalState 1 RStatus.returned
          (some 20) :=
  ⟨by decide,
    (updateRentalStatus_release activeRentalState 1 (some 20)).1
      ⟨1, 1, 10, CalStatus.available⟩ (by decide),
    (updateRentalStatus_release activeRentalState 1 (some 20)).2.1⟩

/-- Counterexample to C5 as stated: cancelling rental 1 sets its status
to cancelled but leaves its calendar row reserved, so the transition to
cancelled does not flip the rows to available. -/
theorem updateRentalStatus_cancelled_keeps_reserved :
    (updateRentalStatus activeRentalState 1 RStatus.cancelled
        none).calendar = [⟨1, 1, 10, CalStatus.reserved⟩] ∧
      (updateRentalStatus activeRentalState 1 RStatus.cancelled
        none).rentals.map (fun r => r.status) = [RStatus.cancelled] := by
  constructor
  · decide
  · decide

/-- Field-level description of updateTransactionPayment on the rows it
rewrites, given the prior record the cached lookup found. -/
theorem updateTxnPayment_spec (st : State) (tid : Nat) (a : Int) (t : Txn)
    (ht : st.transactions.find? (fun u => u.id == tid) = some t) :
    ∀ u ∈ (updateTransactionPayment st tid a).transactions, u.id = tid →
      u.amountPaid = t.amountPaid + a ∧
      u.remainingAmount = max 0 (t.totalAmount - (t.amountPaid + a)) ∧
      u.payStatus =
        (if max 0 (t.totalAmount - (t.amountPaid + a)) = 0 then
          PayStatus.completed
        else if 0 < t.amountPaid + a then PayStatus.part
        else PayStatus.pending) := by
  intro u hu hid
  unfold updateTransactionPayment at hu
  rw [ht] at hu
  simp only [jsOr_self, List.mem_map] at hu
  obtain ⟨v, hv, rfl⟩ := hu
  by_cases h : v.id = tid
  · simp [h]
  · rw [if_neg h] at hid ⊢
    exact absurd hid h

/-- Field-level description of updateRentalPayment on the rows it
rewrites, given the prior record the cached lookup found. -/
theorem updateRentalPayment_spec (st : State) (rid : Nat) (a : Int)
    (rl : Rental)
    (hr : st.rentals.find? (fun u => u.id == rid) = some rl) :
    ∀ u ∈ (updateRentalPayment st rid a).rentals, u.id = rid →
      u.amountPaid = rl.amountPaid + a ∧
      u.remainingAmount = max 0 (rl.totalAmount - (rl.amountPaid + a)) ∧
      u.payStatus =
        (if max 0 (rl.totalAmount - (rl.amountPaid + a)) = 0 then
          PayStatus.completed
        else if 0 < rl.amountPaid + a then PayStatus.part
        else PayStatus.pending) := by
  intro u hu hid
  unfold updateRentalPayment at hu
  rw [hr] at hu
  simp only [jsOr_self, List.mem_map] at hu
  obtain ⟨v, hv, rfl⟩ := hu
  by_cases h : v.id = rid
  · simp [h]
  · rw [if_neg h] at hid ⊢
    exact absurd hid h

/-- C3: applyPayment writes amountPaid = p + a, remainingAmount =
max(0, T - (p + a)) and paymentStatus completed when the new remaining
is 0, else partial when p + a > 0, else pending, on both transactions
and rentals; the stored amountPaid is not capped at T while remaining
is clamped at 0. -/
theorem applyPayment_writes_formula (stT stR : State) (tid rid : Nat)
    (a : Int) (t : Txn) (rl : Rental)
    (ht : stT.transactions.find? (fun u => u.id == tid) = some t)
    (hr : stR.rentals.find? (fun u => u.id == rid) = some rl) :
    (∀ u ∈ (updateTransactionPayment stT tid a).transactions,
      u.id = tid →
        u.amountPaid = t.amountPaid + a ∧
        u.remainingAmount = max 0 (t.totalAmount - (t.amountPaid + a)) ∧
        u.payStatus =
          (if max 0 (t.totalAmount - (t.amountPaid + a)) = 0 then
            PayStatus.completed
          else if 0 < t.amountPaid + a then PayStatus.part
          else PayStatus.pending)) ∧
    (∀ u ∈ (updateRentalPayment stR rid a).rentals, u.id = rid →
        u.amountPaid = rl.amountPaid + a ∧
        u.remainingAmount = max 0 (rl.totalAmount - (rl.amountPaid + a)) ∧
        u.payStatus =
          (if max 0 (rl.totalAmount - (rl.amountPaid + a)) = 0 then
            PayStatus.completed
          else if 0 < rl.amountPaid + a then PayStatus.part
          else PayStatus.pending)) := by
  constructor
  · intro u hu hid
    exact updateTxnPayment_spec stT tid a t ht u hu hid
  · intro u hu hid
    exact updateRentalPayment_spec stR rid a rl hr u hu hid

/-- Witness for C3: transaction 1 (total 500, paid 100) takes a payment
of 200, rental 2 (total 300, paid 50) takes a payment of 200. -/
theorem applyPayment_writes_formula_witness :
    (∀ u ∈ (updateTransactionPayment partPaidState 1 200).transactions,
      u.id = 1 →
        u.amountPaid = 100 + 200 ∧
        u.remainingAmount = max 0 (500 - (100 + 200)) ∧
        u.payStatus =
          (if max 0 (500 - (100 + 200) : Int) = 0 then PayStatus.completed
          else if 0 < (100 : Int) + 200 then PayStatus.part
          else PayStatus.pending)) ∧
    (∀ u ∈ (updateRentalPayment partPaidState 2 200).rentals, u.id = 2 →
        u.amountPaid = 50 + 200 ∧
        u.remainingAmount = max 0 (300 - (50 + 200)) ∧
        u.payStatus =
          (if max 0 (300 - (50 + 200) : Int) = 0 then PayStatus.completed
          else if 0 < (50 : Int) + 200 then PayStatus.part
          else PayStatus.pending)) :=
  applyPayment_writes_formula partPaidState partPaidState 1 2 200
    ⟨1, TxType.sale, 1, 1, 500, 100, 400, PayStatus.part⟩
    ⟨2, 1, 10, 12, 300, 50, 250, PayStatus.part, RStatus.active, none⟩
    (by decide) (by decide)

/-- C6 (amended): after a payment mutation the written record satisfies
remainingAmount = max(0, totalAmount - amountPaid), which is never
negative; the exact ledger equation remaining + paid = total holds
whenever the accumulated amountPaid does not exceed totalAmount, and on
overpayment remaining is clamped to 0 so the sum exceeds the total. -/
theorem applyPayment_remaining_clamped (stT stR : State) (tid rid : Nat)
    (a : Int) (t : Txn) (rl : Rental)
    (ht : stT.transactions.find? (fun u => u.id == tid) = some t)
    (hr : stR.rentals.find? (fun u => u.id == rid) = some rl) :
    (∀ u ∈ (updateTransactionPayment stT tid a).transactions,
      u.id = tid →
        u.remainingAmount = max 0 (t.totalAmount - u.amountPaid) ∧
        0 ≤ u.remainingAmount ∧
        (u.amountPaid ≤ t.totalAmount →
          u.remainingAmount + u.amountPaid = t.totalAmount)) ∧
    (∀ u ∈ (updateRentalPayment stR rid a).rentals, u.id = rid →
        u.remainingAmount = max 0 (rl.totalAmount - u.amountPaid) ∧
        0 ≤ u.remainingAmount ∧
        (u.amountPaid ≤ rl.totalAmount →
          u.remainingAmount + u.amountPaid = rl.totalAmount)) := by
  constructor
  · intro u hu hid
    obtain ⟨h1, h2, _⟩ := updateTxnPayment_spec stT tid a t ht u hu hid
    rw [h1, h2]
    refine ⟨rfl, le_max_left 0 _, ?_⟩
    intro hle
    omega
  · intro u hu hid
    obtain ⟨h1, h2, _⟩ :=
      updateRentalPayment_spec stR rid a rl hr u hu hid
    rw [h1, h2]
    refine ⟨rfl, le_max_left 0 _, ?_⟩
    intro hle
    omega

/-- Witness for the amended C6 at the concrete partially paid store. -/
theorem applyPayment_remaining_clamped_witness :
    (∀ u ∈ (updateTransactionPayment partPaidState 1 200).transactions,
      u.id = 1 →
        u.remainingAmount = max 0 (500 - u.amountPaid) ∧
        0 ≤ u.remainingAmount ∧
        (u.amountPaid ≤ 500 →
          u.remainingAmount + u.amountPaid = 500)) ∧
    (∀ u ∈ (updateRentalPayment partPaidState 2 200).rentals, u.id = 2 →
        u.remainingAmount = max 0 (300 - u.amountPaid) ∧
        0 ≤ u.remainingAmount ∧
        (u.amountPaid ≤ 300 →
          u.remainingAmount + u.amountPaid = 300)) :=
  applyPayment_remaining_clamped partPaidState partPaidState 1 2 200
    ⟨1, TxType.sale, 1, 1, 500, 100, 400, PayStatus.part⟩
    ⟨2, 1, 10, 12, 300, 50, 250, PayStatus.part, RStatus.active, none⟩
    (by decide) (by decide)

/-- Counterexample to C6 as stated: paying 50 more on the fully paid
transaction (total 500, paid 500) stores amountPaid 550 and remaining
0, and 0 + 550 is not 500: the exact equation fails on overpayment. -/
theorem payment_sum_invariant_cex :
    (updateTransactionPayment fullyPaidState 1 50).transactions.map
        (fun u => u.remainingAmount + u.amountPaid) = [550] ∧
      (updateTransactionPayment fullyPaidState 1 50).transactions.map
        (fun u => u.totalAmount) = [500] ∧
      (550 : Int) ≠ 500 := by
  refine ⟨by decide, by decide, by decide⟩

/-- C7 (amended): the code performs no validation of the payment
amount: an amount a ≤ 0 is not rejected with any error; the write still
happens and stores amountPaid = p + a on both transactions and
rentals. -/
theorem applyPayment_no_amount_validation (stT stR : State)
    (tid rid : Nat) (a : Int) (t : Txn) (rl : Rental) (_ha : a ≤ 0)
    (ht : stT.transactions.find? (fun u => u.id == tid) = some t)
    (hr : stR.rentals.find? (fun u => u.id == rid) = some rl) :
    (∀ u ∈ (updateTransactionPayment stT tid a).transactions,
      u.id = tid → u.amountPaid = t.amountPaid + a) ∧
    (∀ u ∈ (updateRentalPayment stR rid a).rentals, u.id = rid →
        u.amountPaid = rl.amountPaid + a) := by
  constructor
  · intro u hu hid
    exact (updateTxnPayment_spec stT tid a t ht u hu hid).1
  · intro u hu hid
    exact (updateRentalPayment_spec stR rid a rl hr u hu hid).1

/-- Witness for the amended C7: a payment of -5 on transaction 1 and on
rental 2 is applied, not rejected. -/
theorem applyPayment_no_amount_validation_witness :
    (∀ u ∈ (updateTransactionPayment partPaidState 1 (-5)).transactions,
      u.id = 1 → u.amountPaid = 100 + (-5)) ∧
    (∀ u ∈ (updateRentalPayment partPaidState 2 (-5)).rentals,
      u.id = 2 → u.amountPaid = 50 + (-5)) :=
  applyPayment_no_amount_validation partPaidState partPaidState 1 2 (-5)
    ⟨1, TxType.sale, 1, 1, 500, 100, 400, PayStatus.part⟩
    ⟨2, 1, 10, 12, 300, 50, 250, PayStatus.part, RStatus.active, none⟩
    (by decide) (by decide) (by decide)

/-- Counterexample to C7 as stated: the payment of -5 on transaction 1
mutates the store (amountPaid drops from 100 to 95) instead of being
rejected with an InvalidAmount error before any write. -/
theorem payment_negative_amount_written :
    updateTransactionPayment partPaidState 1 (-5) ≠ partPaidState ∧
      (updateTransactionPayment partPaidState 1 (-5)).transactions.map
        (fun u => u.amountPaid) = [95] := by
  refine ⟨by decide, by decide⟩

/-- Field-level description of updateStock on the product it rewrites,
given the prior record the cached lookup found. -/
theorem updateStock_spec (st : State) (pid : Nat) (q : Int) (p : Product)
    (hp : st.products.find? (fun x => x.id == pid) = some p) :
    ∀ u ∈ (updateStock st pid q).products, u.id = pid →
      u.stock = max 0 (p.stock + q) ∧ 0 ≤ u.stock := by
  intro u hu hid
  unfold updateStock at hu
  rw [hp] at hu
  simp only [List.mem_map] at hu
  obtain ⟨v, hv, rfl⟩ := hu
  by_cases h : v.id = pid
  · rw [if_pos h] at hid ⊢
    exact ⟨rfl, le_max_left 0 _⟩
  · rw [if_neg h] at hid
    exact absurd hid h

/-- C10: every stock write through updateStock stores
max(0, stock + delta), and the sale branch of addTransaction decrements
by the sold quantity through the same floor, so stock never goes
negative: an oversized decrement silently floors at 0. -/
theorem updateStock_floors_at_zero (st : State) (pid : Nat) (q : Int)
    (p : Product)
    (hp : st.products.find? (fun x => x.id == pid) = some p)
    (t : TxnInput) (htype : t.type = TxType.sale)
    (hpid : t.productId = pid) :
    (∀ u ∈ (updateStock st pid q).products, u.id = pid →
        u.stock = max 0 (p.stock + q) ∧ 0 ≤ u.stock) ∧
    (∀ u ∈ (addTransaction st t).1.products, u.id = pid →
        u.stock = max 0 (p.stock - t.quantity) ∧ 0 ≤ u.stock) := by
  constructor
  · exact updateStock_spec st pid q p hp
  · intro u hu hid
    unfold addTransaction insertTxn at hu
    simp only [htype, eq_self_iff_true, if_true, hpid] at hu
    rw [sub_eq_add_neg]
    refine updateStock_spec _ pid (-t.quantity) p ?_ u hu hid
    exact hp

/-- Witness for C10: product 1 holds five units; removing ten floors
the stock at 0, and a sale of two units stores three. -/
theorem updateStock_floors_at_zero_witness :
    (∀ u ∈ (updateStock stockState 1 (-10)).products, u.id = 1 →
        u.stock = max 0 (5 + (-10)) ∧ 0 ≤ u.stock) ∧
    (∀ u ∈ (addTransaction stockState saleInput).1.products, u.id = 1 →
        u.stock = max 0 (5 - 2) ∧ 0 ≤ u.stock) :=
  updateStock_floors_at_zero stockState 1 (-10) ⟨1, 5⟩ (by decide)
    saleInput (by decide) (by decide)

/-- In a list without duplicates, the rows equal to d number one when d
occurs and zero otherwise. -/
theorem length_filter_nodup {l : List Nat} (hl : l.Nodup) (d : Nat) :
    (l.filter (fun x => decide (x = d))).length =
      if d ∈ l then 1 else 0 := by
  induction l with
  | nil => simp
  | cons a l ih =>
    rw [List.nodup_cons] at hl
    rw [List.filter_cons]
    by_cases h : a = d
    · subst h
      have hz : (l.filter (fun x => decide (x = a))).length = 0 := by
        rw [ih hl.2]
        simp [hl.1]
      simp [hz]
    · have hne : (decide (a = d)) = false := by simp [h]
      rw [hne]
      simp only [if_false, Bool.false_eq_true]
      rw [ih hl.2]
      have : (d ∈ a :: l) ↔ d ∈ l := by
        constructor
        · intro hm
          rcases List.mem_cons.mp hm with h1 | h1
          · exact absurd h1.symm h
          · exact h1
        · exact fun hm => List.mem_cons_of_mem a hm
      rw [if_congr this rfl rfl]

/-- Counting the rows of the dates loop for one calendar day: when the
two bounds carry the same time-of-day and are ascending, each day of
[start.day, end.day] is generated exactly once and no other day
appears. -/
theorem genDates_filter_count (pid rid : Nat) (s e : JDate)
    (hle : s.ts ≤ e.ts) (hmod : s.ts % msPerDay = e.ts % msPerDay)
    (d : Nat) :
    ((genDates pid rid s e).filter (fun ce =>
        decide (ce.rentalId = rid ∧ ce.date = d ∧
          ce.status = CalStatus.reserved))).length =
      if s.day ≤ d ∧ d ≤ e.day then 1 else 0 := by
  cases s with
  | mk sts =>
    cases e with
    | mk ets =>
      simp only [JDate.day] at hle hmod ⊢
      have hk : ets = sts + ((ets - sts) / msPerDay) * msPerDay := by
        simp only [msPerDay] at hmod ⊢
        omega
      rw [hk, genDates_range, List.filter_map]
      have hcomp : ((fun ce =>
          decide (ce.rentalId = rid ∧ ce.date = d ∧
            ce.status = CalStatus.reserved)) ∘ (fun x =>
          (⟨pid, rid, x, CalStatus.reserved⟩ : CalendarEntry))) =
          (fun x => decide (x = d)) := by
        funext x
        simp
      rw [hcomp, List.length_map,
        length_filter_nodup (List.nodup_range' _ _) d]
      have hdiv : (sts + ((ets - sts) / msPerDay) * msPerDay) / msPerDay =
          sts / msPerDay + (ets - sts) / msPerDay := by
        simp only [msPerDay] at hmod ⊢
        omega
      have hiff : (d ∈ List.range' (sts / msPerDay)
          ((ets - sts) / msPerDay + 1)) ↔
          (sts / msPerDay ≤ d ∧
            d ≤ (sts + (ets - sts) / msPerDay * msPerDay) / msPerDay) := by
        rw [List.mem_range'_1, hdiv]
        omega
      exact if_congr hiff rfl rfl

/-- C2 (amended): for every successful addRental whose start and end
carry the same time-of-day (as the date-only UI inputs do) and with
start not after end, the new store holds exactly one reserved
CalendarEntry carrying the new rental id for each calendar day from
start to end inclusive, and none for any other day; in particular a
single-day rental yields exactly one row.  As originally stated the
claim fails when the time-of-day components differ, because the loop
compares raw timestamps: see the counterexample. -/
theorem addRental_one_entry_per_day (st : State) (r : RentalInput)
    (hcheck : checkProductAvailability st r.productId r.rentalStartDate
      r.rentalEndDate = true)
    (hfresh : ∀ e ∈ st.calendar, e.rentalId ≠ st.nextId)
    (hle : r.rentalStartDate.ts ≤ r.rentalEndDate.ts)
    (hmod : r.rentalStartDate.ts % msPerDay =
      r.rentalEndDate.ts % msPerDay) :
    (addRental st r).1 = Except.ok st.nextId ∧
    ∀ d : Nat,
      ((addRental st r).2.calendar.filter (fun ce =>
        decide (ce.rentalId = st.nextId ∧ ce.date = d ∧
          ce.status = CalStatus.reserved))).length =
      (if r.rentalStartDate.day ≤ d ∧ d ≤ r.rentalEndDate.day then 1
      else 0) := by
  constructor
  · unfold addRental
    rw [if_pos hcheck]
  · intro d
    unfold addRental
    rw [if_pos hcheck]
    show (((insertRental st r).calendar).filter _).length = _
    unfold insertRental
    simp only [List.filter_append, List.length_append]
    have hold : (st.calendar.filter (fun ce =>
        decide (ce.rentalId = st.nextId ∧ ce.date = d ∧
          ce.status = CalStatus.reserved))).length = 0 := by
      rw [List.length_eq_zero, List.filter_eq_nil_iff]
      intro a ha
      simp only [decide_eq_true_eq, not_and]
      intro hrid
      exact absurd hrid (hfresh a ha)
    rw [hold, genDates_filter_count r.productId st.nextId
      r.rentalStartDate r.rentalEndDate hle hmod d]
    simp

/-- Witness for the amended C2: a midnight-to-midnight single-day
request on day 0 in an empty store creates exactly one reserved row for
day 0 and none for day 1. -/
theorem addRental_one_entry_per_day_witness :
    checkProductAvailability emptyState5 singleDayReq.productId
        singleDayReq.rentalStartDate singleDayReq.rentalEndDate = true ∧
      (addRental emptyState5 singleDayReq).1 = Except.ok 5 ∧
      ((addRental emptyState5 singleDayReq).2.calendar.filter (fun ce =>
        decide (ce.rentalId = 5 ∧ ce.date = 0 ∧
          ce.status = CalStatus.reserved))).length =
        (if singleDayReq.rentalStartDate.day ≤ 0 ∧
            0 ≤ singleDayReq.rentalEndDate.day then 1
        else 0) ∧
      ((addRental emptyState5 singleDayReq).2.calendar.filter (fun ce =>
        decide (ce.rentalId = 5 ∧ ce.date = 1 ∧
          ce.status = CalStatus.reserved))).length =
        (if singleDayReq.rentalStartDate.day ≤ 1 ∧
            1 ≤ singleDayReq.rentalEndDate.day then 1
        else 0) :=
  ⟨by decide,
    (addRental_one_entry_per_day emptyState5 singleDayReq (by decide)
      (by decide) (by decide) (by decide)).1,
    (addRental_one_entry_per_day emptyState5 singleDayReq (by decide)
      (by decide) (by decide) (by decide)).2 0,
    (addRental_one_entry_per_day emptyState5 singleDayReq (by decide)
      (by decide) (by decide) (by decide)).2 1⟩

/-- Counterexample to C2 as stated: the request runs from day 0 at one
millisecond past midnight to day 1 at midnight, so by calendar day the
inclusive range is [0, 1] and start <= end also as timestamps; the
commit succeeds but writes a single CalendarEntry, for day 0 only —
day 1, the last calendar day of the range, gets no row because the
loop compares raw timestamps instead of calendar days. -/
theorem addRental_drops_last_day :
    (addRental emptyState5 lateStartReq).1 = Except.ok 5 ∧
      lateStartReq.rentalStartDate.ts ≤ lateStartReq.rentalEndDate.ts ∧
      lateStartReq.rentalStartDate.day = 0 ∧
      lateStartReq.rentalEndDate.day = 1 ∧
      (addRental emptyState5 lateStartReq).2.calendar =
        [⟨1, 5, 0, CalStatus.reserved⟩] := by
  have hgen : genDates 1 5 ⟨1⟩ ⟨msPerDay⟩ =
      [⟨1, 5, 0, CalStatus.reserved⟩] := by
    rw [genDates_of_le 1 5 (by simp [msPerDay])]
    rw [genDates_of_gt 1 5 (by simp [JDate.nextDay, msPerDay])]
    simp [JDate.day, msPerDay]
  refine ⟨?_, by decide, by decide, by decide, ?_⟩
  · unfold addRental
    rw [if_pos (by decide)]
    rfl
  · unfold addRental
    rw [if_pos (by decide)]
    unfold insertRental
    simp only []
    show ([] : List CalendarEntry) ++
        genDates lateStartReq.productId emptyState5.nextId
          lateStartReq.rentalStartDate lateStartReq.rentalEndDate =
      [⟨1, 5, 0, CalStatus.reserved⟩]
    rw [List.nil_append]
    show genDates 1 5 ⟨1⟩ ⟨msPerDay⟩ = [⟨1, 5, 0, CalStatus.reserved⟩]
    exact hgen

/-- A transaction payment does not touch the rentals table. -/
theorem updateTransactionPayment_rentals (st : State) (tid : Nat)
    (a : Int) : (updateTransactionPayment st tid a).rentals =
      st.rentals := by
  unfold updateTransactionPayment
  split <;> rfl

/-- A stock write does not touch the rentals table. -/
theorem updateStock_rentals (st : State) (pid : Nat) (q : Int) :
    (updateStock st pid q).rentals = st.rentals := by
  unfold updateStock
  split <;> rfl

/-- addTransaction does not touch the rentals table. -/
theorem addTransaction_rentals (st : State) (t : TxnInput) :
    (addTransaction st t).1.rentals = st.rentals := by
  unfold addTransaction insertTxn
  simp only []
  by_cases h : t.type = TxType.sale
  · rw [if_pos h, updateStock_rentals]
  · rw [if_neg h]

/-- Every allowed operation preserves the absence of a stored overdue
status. -/
theorem step_no_overdue {s1 s2 : State} (h : Step s1 s2)
    (inv : ∀ r ∈ s1.rentals, r.status ≠ RStatus.overdue) :
    ∀ r ∈ s2.rentals, r.status ≠ RStatus.overdue := by
  cases h with
  | commit r hr =>
    intro x hx
    unfold addRental at hx
    split at hx
    · unfold insertRental at hx
      simp only [List.mem_cons] at hx
      rcases hx with hx | hx
      · rw [hx, hr]
        simp
      · exact inv x hx
    · exact inv x hx
  | release id s rAt hs =>
    intro x hx
    unfold updateRentalStatus at hx
    simp only [List.mem_map] at hx
    obtain ⟨v, hv, rfl⟩ := hx
    by_cases h : v.id = id
    · rw [if_pos h]
      rcases hs with h1 | h1 <;> (rw [h1]; simp)
    · rw [if_neg h]
      exact inv v hv
  | payTxn tid a =>
    intro x hx
    rw [updateTransactionPayment_rentals] at hx
    exact inv x hx
  | payRental rid a =>
    intro x hx
    unfold updateRentalPayment at hx
    split at hx
    · exact inv x hx
    · simp only [List.mem_map] at hx
      obtain ⟨v, hv, rfl⟩ := hx
      by_cases h : v.id = rid
      · rw [if_pos h]
        exact inv v hv
      · rw [if_neg h]
        exact inv v hv
  | stock pid q =>
    intro x hx
    rw [updateStock_rentals] at hx
    exact inv x hx
  | sell t =>
    intro x hx
    rw [addTransaction_rentals] at hx
    exact inv x hx

/-- C8: overdue is a read-time classification only: in every store
reachable under the spec-modelled call discipline no rental row carries
a persisted overdue status, and the overdue count of getStats is
recomputed at read time as the pure function isOverdue of
(endDate, stored status, now) over the rental rows. -/
theorem overdue_is_derived_read_time (st : State) (h : Reachable st)
    (now : JDate) :
    (∀ r ∈ st.rentals, r.status ≠ RStatus.overdue) ∧
      (getStats st now).overdueRentals =
        (st.rentals.filter (fun r =>
          isOverdue r.endDay r.status now)).length := by
  constructor
  · unfold Reachable at h
    induction h with
    | refl => intro r hr; exact absurd hr (List.not_mem_nil r)
    | tail hsteps hstep ih => exact step_no_overdue hstep ih
  · rfl

/-- Witness for C8 at the empty reachable store. -/
theorem overdue_is_derived_read_time_witness :
    (∀ r ∈ state0.rentals, r.status ≠ RStatus.overdue) ∧
      (getStats state0 ⟨0⟩).overdueRentals =
        (state0.rentals.filter (fun r =>
          isOverdue r.endDay r.status ⟨0⟩)).length :=
  overdue_is_derived_read_time state0 Relation.ReflTransGen.refl ⟨0⟩

/-- C9: the availability check and the calendar insert of addRental do
not form an atomic unit: in the interleaving where both concurrent
commits run checkProductAvailability before either write phase
(insertRental) starts, both checks report the range free, both write
phases then run, and the store ends with two rental rows and two
reserved calendar rows for product 1 on day 10 — both calls succeed,
against the at-most-one requirement. -/
theorem commitRental_check_insert_race :
    checkProductAvailability raceState raceReqA.productId
        raceReqA.rentalStartDate raceReqA.rentalEndDate = true ∧
      checkProductAvailability raceState raceReqB.productId
        raceReqB.rentalStartDate raceReqB.rentalEndDate = true ∧
      ((insertRental (insertRental raceState raceReqA)
          raceReqB).calendar.filter (fun e =>
        decide (e.productId = 1 ∧ e.date = 10 ∧
          e.status = CalStatus.reserved))).length = 2 ∧
      (insertRental (insertRental raceState raceReqA)
          raceReqB).rentals.length = 2 := by
  have hg1 : genDates 1 1 ⟨864000000⟩ ⟨864000000⟩ =
      [⟨1, 1, 10, CalStatus.reserved⟩] := by
    rw [genDates_of_le 1 1 (le_refl _)]
    rw [genDates_of_gt 1 1 (by simp [JDate.nextDay, msPerDay])]
    simp [JDate.day, msPerDay]
  have hg2 : genDates 1 2 ⟨864000000⟩ ⟨864000000⟩ =
      [⟨1, 2, 10, CalStatus.reserved⟩] := by
    rw [genDates_of_le 1 2 (le_refl _)]
    rw [genDates_of_gt 1 2 (by simp [JDate.nextDay, msPerDay])]
    simp [JDate.day, msPerDay]
  have hstA : insertRental raceState raceReqA =
      { products := [⟨1, 3⟩], transactions := [],
        rentals := [⟨1, 1, 10, 10, 100, 100, 0, PayStatus.completed,
          RStatus.active, none⟩],
        calendar := [⟨1, 1, 10, CalStatus.reserved⟩], nextId := 2,
        calSelectFails := false } := by
    unfold insertRental raceState raceReqA
    simp [hg1, jsOr, JDate.day, msPerDay]
  have hstB : insertRental (insertRental raceState raceReqA) raceReqB =
      { products := [⟨1, 3⟩], transactions := [],
        rentals := [⟨2, 1, 10, 10, 200, 200, 0, PayStatus.completed,
            RStatus.active, none⟩,
          ⟨1, 1, 10, 10, 100, 100, 0, PayStatus.completed,
            RStatus.active, none⟩],
        calendar := [⟨1, 1, 10, CalStatus.reserved⟩,
          ⟨1, 2, 10, CalStatus.reserved⟩],
        nextId := 3, calSelectFails := false } := by
    rw [hstA]
    unfold insertRental raceReqB
    simp [hg2, jsOr, JDate.day, msPerDay]
  refine ⟨by decide, by decide, ?_, ?_⟩
  · rw [hstB]
    decide
  · rw [hstB]
    decide

end Gestion
